import Mathlib

/-
Verification of LLDBPlatformConnectOptionsFactory::Create
(src/YetiVSI.DebugEngine.LLDBWorker/LLDBPlatformConnectOptionsFactory.cc).

The factory is:

  SbPlatformConnectOptions ^
      LLDBPlatformConnectOptionsFactory::Create(System::String ^ url) {
    auto url_string = msclr::interop::marshal_as<std::string>(url);
    lldb::SBPlatformConnectOptions shell_command(url_string.c_str());
    return gcnew LLDBPlatformConnectOptions(shell_command);
  }

The embedding models a managed `System::String^` as `Option (List Char)`
(`none` is the null reference), a native byte as a `Nat`, and instruments
the function with an explicit allocation counter (for `gcnew` identity) and
an event trace recording the bridging step, the native constructor call with
the exact buffer handed to it, the wrapper allocation, and the release of
the transient `std::string` buffer at scope exit.
-/

namespace YetiVSI
namespace DebugEngine

/-- Whether a character is representable in the platform's native
narrow-character encoding, modelled as the ASCII-preserving part of a
Windows ANSI code page: code points below 128 are representable. -/
def acpRepresentable (c : Char) : Bool := c.toNat < 128

/-- Transcoding of one character into the native narrow encoding, as done by
the msclr marshalling layer (WideCharToMultiByte with the
WC_NO_BEST_FIT_CHARS policy): a representable character maps to its own code
point; a character the code page cannot represent is substituted by the
default character `?` (byte 0x3F = 63), not rejected. -/
def acpEncodeChar (c : Char) : Nat := if c.toNat < 128 then c.toNat else 63

/-- Failure of the managed-to-native string bridging step.
`argumentNull` models `System::ArgumentNullException`, which
`msclr::interop::marshal_as<std::string>` throws for a null `String^`. -/
inductive MarshalError
  | argumentNull
deriving DecidableEq

/-- Model of `msclr::interop::marshal_as<std::string>` (line 26 of the
source): a null reference raises `ArgumentNullException` before any native
work; otherwise the text is transcoded character by character into the
native narrow encoding, embedded U+0000 characters included (the conversion
uses the explicit string length, not null-termination). -/
def marshal_as : Option (List Char) → Except MarshalError (List Nat)
  | none => .error .argumentNull
  | some cs => .ok (cs.map acpEncodeChar)

/-- Model of `std::string::c_str()`: the stored bytes followed by the one
terminating null byte. This is the buffer whose pointer is handed to the
native constructor. -/
def c_str (bytes : List Nat) : List Nat := bytes ++ [0]

/-- The native `lldb::SBPlatformConnectOptions` value, opaque except for the
locator bytes its constructor consumed from the C-string buffer. -/
structure SBPlatformConnectOptions where
  url : List Nat
deriving DecidableEq

/-- Behaviour of the external native constructor
`lldb::SBPlatformConnectOptions(const char*)`: from the buffer it receives
it either constructs a value or faults (a fault is an opaque code). The
constructor is external to the repository, so `Create` is parameterised over
it. -/
abbrev NativeCtor := List Nat → Except Nat SBPlatformConnectOptions

/-- The non-faulting native constructor behaviour: it consumes the C string,
i.e. the bytes of the buffer up to the first null byte. -/
def nativeCtorOk : NativeCtor :=
  fun buf => .ok ⟨buf.takeWhile (fun b => b != 0)⟩

/-- A native constructor behaviour that always faults, with fault code 7. -/
def failingCtor : NativeCtor := fun _ => .error 7

/-- The managed wrapper object allocated by `gcnew LLDBPlatformConnectOptions`.
`id` is its allocation identity (distinct objects have distinct ids); `handle`
is the owned native value, `none` standing for a null native handle (the
factory always stores the freshly constructed value). -/
structure LLDBPlatformConnectOptions where
  id : Nat
  handle : Option SBPlatformConnectOptions
deriving DecidableEq

/-- The error taxonomy of the specification, plus the raw propagation the
code actually performs. `Create` itself only ever produces
`invalidArgument` (from `ArgumentNullException`, the InvalidArgument family)
and `nativeFault` (an uncaught native fault unwinding through the factory);
`encodingError` and `nativeConstructionError` are the signals the spec
prescribes and are present so that statements about them can be made. -/
inductive CreateError
  | invalidArgument
  | encodingError
  | nativeFault (f : Nat)
  | nativeConstructionError (locator : List Char) (f : Nat)
deriving DecidableEq

deriving instance DecidableEq for Except

/-- Observable events of one `Create` invocation, in order of occurrence. -/
inductive Event
  | marshaled (bytes : List Nat)
  | nativeCall (buffer : List Nat)
  | wrapperAllocated (id : Nat)
  | bufferReleased
deriving DecidableEq

/-- Shallow embedding of `LLDBPlatformConnectOptionsFactory::Create`
(lines 24-31 of the source). Inputs: the native constructor behaviour, the
`url` argument, and the next fresh allocation id. Output: the returned
managed reference (or the propagated exception), the next fresh allocation
id, and the event trace. The structure mirrors the source exactly: marshal
the string (throwing `ArgumentNullException` for null before anything else),
build the `std::string`, call the native constructor on `c_str()`, wrap the
result with `gcnew`, and release the transient `url_string` buffer at scope
exit on both the normal and the unwinding path. There is no try/catch: a
native fault propagates unchanged. -/
def Create (ctor : NativeCtor) (url : Option (List Char)) (fresh : Nat) :
    Except CreateError (Option LLDBPlatformConnectOptions) × Nat × List Event :=
  match marshal_as url with
  | .error .argumentNull => (.error .invalidArgument, fresh, [])
  | .ok url_string =>
    match ctor (c_str url_string) with
    | .error f =>
        (.error (.nativeFault f), fresh,
         [.marshaled url_string, .nativeCall (c_str url_string),
          .bufferReleased])
    | .ok shell_command =>
        (.ok (some ⟨fresh, some shell_command⟩), fresh + 1,
         [.marshaled url_string, .nativeCall (c_str url_string),
          .wrapperAllocated fresh, .bufferReleased])

/-- The buffer handed to the native constructor during `Create` (the first
`nativeCall` event of the trace), if any native call happened at all. -/
def passedBuffer (ctor : NativeCtor) (url : Option (List Char)) :
    Option (List Nat) :=
  ((Create ctor url 0).2.2.filterMap fun e =>
    match e with
    | .nativeCall b => some b
    | _ => none).head?

/-- A buffer is singly null-terminated when its last byte is the null byte
and no byte of its content (everything before the terminator) is null. -/
def singlyTerminated (buf : List Nat) : Bool :=
  buf.getLast? == some 0 && buf.dropLast.all (fun b => b != 0)

/-- A release of the native resource owned by the wrapper of the given
allocation id. -/
inductive ReleaseEvent
  | release (id : Nat)
deriving DecidableEq

/-- Modelled from the spec: the `LLDBPlatformConnectOptions` wrapper class
itself (declared in LLDBPlatformConnectOptions.h) is not under src/, only
this factory is. Per the spec, the wrapper is a scoped-acquisition object
"whose teardown calls the native release function on every exit path
(normal return, early failure, unwind), never duplicated and never leaked":
tearing the wrapper down emits exactly one release of its own native
resource and nothing else. -/
def teardown (w : LLDBPlatformConnectOptions) : List ReleaseEvent :=
  [.release w.id]

/-- Helper: for a non-null url the buffer handed to the native constructor
is always the transcoded bytes followed by the null terminator, whatever the
constructor then does. -/
theorem passedBuffer_some (ctor : NativeCtor) (s : List Char) :
    passedBuffer ctor (some s) = some (s.map acpEncodeChar ++ [0]) := by
  unfold passedBuffer Create marshal_as
  cases h : ctor (c_str (s.map acpEncodeChar)) <;> simp [c_str] at h ⊢ <;> simp [h]

/-- C1: for a null (absent) `url`, `Create` fails fast with the
InvalidArgument signal (the `ArgumentNullException` thrown by `marshal_as`)
and its trace is empty, so in particular the `lldb::SBPlatformConnectOptions`
constructor is never invoked — whatever the native constructor's behaviour
would have been. -/
theorem Create_null_invalidArgument (ctor : NativeCtor) (fresh : Nat) :
    (Create ctor none fresh).1 = .error .invalidArgument ∧
    (Create ctor none fresh).2.2 = [] :=
  ⟨rfl, rfl⟩

/-- C2 counterexample: the null character U+0000 is representable in the
native narrow encoding (it transcodes to byte 0), yet for the one-character
locator consisting of U+0000 the buffer handed to the native constructor is
`[0, 0]`, which is not terminated by a single null byte absent from the
content — the content itself contains a null byte — and the native value is
constructed from the empty C string rather than from the exact transcoding
`[0]`. -/
theorem Create_embedded_null_cex :
    acpRepresentable (Char.ofNat 0) = true ∧
    passedBuffer nativeCtorOk (some [Char.ofNat 0]) = some [0, 0] ∧
    singlyTerminated [0, 0] = false ∧
    (Create nativeCtorOk (some [Char.ofNat 0]) 0).1 =
      .ok (some ⟨0, some ⟨[]⟩⟩) := by decide

/-- C2 amended: for every locator text all of whose characters are
representable in the native narrow encoding and none of which is the null
character U+0000, the buffer handed to the native constructor is exactly the
transcoding of the input followed by one trailing null byte, with no
embedded null byte — whatever the native constructor then does with it. -/
theorem Create_representable_buffer (ctor : NativeCtor) (s : List Char)
    (hrep : ∀ c ∈ s, acpRepresentable c = true)
    (hnz : ∀ c ∈ s, c.toNat ≠ 0) :
    passedBuffer ctor (some s) = some (s.map acpEncodeChar ++ [0]) ∧
    singlyTerminated (s.map acpEncodeChar ++ [0]) = true := by
  refine ⟨passedBuffer_some ctor s, ?_⟩
  unfold singlyTerminated
  rw [Bool.and_eq_true]
  constructor
  · simp
  · rw [List.dropLast_concat, List.all_eq_true]
    intro b hb
    rw [List.mem_map] at hb
    obtain ⟨c, hc, hbc⟩ := hb
    have h1 := hrep c hc
    have h2 := hnz c hc
    unfold acpRepresentable at h1
    unfold acpEncodeChar at hbc
    rw [if_pos (by exact_mod_cast (by simpa using h1))] at hbc
    subst hbc
    simpa using h2

/-- C2 amended, witness at the concrete locator "abc". -/
theorem Create_representable_buffer_witness :
    passedBuffer nativeCtorOk (some ['a', 'b', 'c']) =
      some (['a', 'b', 'c'].map acpEncodeChar ++ [0]) ∧
    singlyTerminated (['a', 'b', 'c'].map acpEncodeChar ++ [0]) = true :=
  Create_representable_buffer nativeCtorOk ['a', 'b', 'c']
    (by decide) (by decide)

/-- C3 counterexample: the character U+221A is not representable in the
native narrow encoding, yet `Create` does not fail with any signal — it
succeeds — and the native constructor is called, with the substituted byte
63 (the default character `?`) in place of the character. -/
theorem Create_unrepresentable_substituted_cex :
    acpRepresentable (Char.ofNat 8730) = false ∧
    (Create nativeCtorOk (some [Char.ofNat 8730]) 0).1 =
      .ok (some ⟨0, some ⟨[63]⟩⟩) ∧
    passedBuffer nativeCtorOk (some [Char.ofNat 8730]) = some [63, 0] := by
  decide

/-- C3 amended: a locator character that is not representable in the native
narrow encoding is silently substituted by the default character 63 (`?`),
the native constructor is still called — with the substituted bytes — and
`Create` (under the non-faulting native constructor) succeeds rather than
raising `EncodingError`. -/
theorem Create_unrepresentable_substitutes (s : List Char) (c : Char)
    (hc : c ∈ s) (h : acpRepresentable c = false) :
    acpEncodeChar c = 63 ∧
    (63 : Nat) ∈ s.map acpEncodeChar ∧
    passedBuffer nativeCtorOk (some s) = some (s.map acpEncodeChar ++ [0]) ∧
    ∃ w, (Create nativeCtorOk (some s) 0).1 = .ok (some w) := by
  have h63 : acpEncodeChar c = 63 := by
    unfold acpRepresentable at h
    unfold acpEncodeChar
    rw [if_neg]
    simpa using h
  refine ⟨h63, ?_, passedBuffer_some nativeCtorOk s, ⟨_, rfl⟩⟩
  exact List.mem_map.mpr ⟨c, hc, h63⟩

/-- C3 amended, witness at the one-character locator U+221A. -/
theorem Create_unrepresentable_substitutes_witness :
    acpEncodeChar (Char.ofNat 8730) = 63 ∧
    (63 : Nat) ∈ [Char.ofNat 8730].map acpEncodeChar ∧
    passedBuffer nativeCtorOk (some [Char.ofNat 8730]) =
      some ([Char.ofNat 8730].map acpEncodeChar ++ [0]) ∧
    ∃ w, (Create nativeCtorOk (some [Char.ofNat 8730]) 0).1 = .ok (some w) :=
  Create_unrepresentable_substitutes [Char.ofNat 8730] (Char.ofNat 8730)
    (by decide) (by decide)

/-- The error carried by a `Create` result, if it failed. -/
def errorOf : Except CreateError (Option LLDBPlatformConnectOptions) →
    Option CreateError
  | .error e => some e
  | .ok _ => none

/-- Whether an error is the spec's `NativeConstructionError` (the only
error of the taxonomy that carries the locator text). -/
def isConstructionError : CreateError → Bool
  | .nativeConstructionError _ _ => true
  | _ => false

/-- C4 counterexample: under a native constructor that faults (with fault
code 7), `Create` on the locator "u" surfaces the raw `nativeFault 7` — an
error that is not a `NativeConstructionError` and carries no locator text —
because the source has no try/catch and propagates the fault unchanged. -/
theorem Create_fault_raw_cex :
    errorOf (Create failingCtor (some ['u']) 0).1 =
      some (.nativeFault 7) ∧
    (errorOf (Create failingCtor (some ['u']) 0).1).map isConstructionError =
      some false := by decide

/-- C4 amended: if the native constructor faults, the fault is propagated
to the caller unchanged — as the raw native fault, not wrapped in a
`NativeConstructionError` and not annotated with the locator text — and no
wrapper is allocated (the trace holds no `wrapperAllocated` event and the
allocation counter is unchanged). -/
theorem Create_fault_propagates (ctor : NativeCtor) (s : List Char)
    (fresh : Nat) (f : Nat)
    (h : ctor (c_str (s.map acpEncodeChar)) = .error f) :
    (Create ctor (some s) fresh).1 = .error (.nativeFault f) ∧
    (Create ctor (some s) fresh).2.2 =
      [.marshaled (s.map acpEncodeChar),
       .nativeCall (c_str (s.map acpEncodeChar)), .bufferReleased] ∧
    (Create ctor (some s) fresh).2.1 = fresh := by
  refine ⟨?_, ?_, ?_⟩ <;> simp [Create, marshal_as, h]

/-- C4 amended, witness under the always-faulting native constructor. -/
theorem Create_fault_propagates_witness :
    (Create failingCtor (some ['u']) 0).1 = .error (.nativeFault 7) ∧
    (Create failingCtor (some ['u']) 0).2.2 =
      [.marshaled (['u'].map acpEncodeChar),
       .nativeCall (c_str (['u'].map acpEncodeChar)), .bufferReleased] ∧
    (Create failingCtor (some ['u']) 0).2.1 = 0 :=
  Create_fault_propagates failingCtor ['u'] 0 7 rfl

/-- C5: for the empty-string locator, `Create` succeeds and returns a
wrapper whose native value was constructed from the zero-length,
null-terminated buffer `[0]` (the native value's consumed content is the
empty byte sequence). -/
theorem Create_empty_locator (fresh : Nat) :
    (Create nativeCtorOk (some []) fresh).1 =
      .ok (some ⟨fresh, some ⟨[]⟩⟩) ∧
    passedBuffer nativeCtorOk (some []) = some [0] ∧
    singlyTerminated [0] = true :=
  ⟨rfl, rfl, rfl⟩

/-- C6: `Create` performs exactly the specified steps in order. On the
normal path the trace is bridging, then the native constructor call with
the bridged buffer, then the wrapper allocation, then the release of the
transient buffer at scope exit, and the wrapper is returned; on the
faulting path the wrapper allocation is skipped and the buffer is still
released during the unwind. Nothing after the `nativeCall` event carries
the buffer, so it is not retained past the call. -/
theorem Create_step_sequence (ctor : NativeCtor) (s : List Char)
    (fresh : Nat) :
    (∀ shell_command, ctor (c_str (s.map acpEncodeChar)) = .ok shell_command →
       Create ctor (some s) fresh =
         (.ok (some ⟨fresh, some shell_command⟩), fresh + 1,
          [.marshaled (s.map acpEncodeChar),
           .nativeCall (c_str (s.map acpEncodeChar)),
           .wrapperAllocated fresh, .bufferReleased])) ∧
    (∀ f, ctor (c_str (s.map acpEncodeChar)) = .error f →
       Create ctor (some s) fresh =
         (.error (.nativeFault f), fresh,
          [.marshaled (s.map acpEncodeChar),
           .nativeCall (c_str (s.map acpEncodeChar)),
           .bufferReleased])) := by
  constructor <;> intro x h <;> simp [Create, marshal_as, h]

/-- C6, witness on the normal path at the locator "a". -/
theorem Create_step_sequence_witness :
    Create nativeCtorOk (some ['a']) 0 =
      (.ok (some ⟨0, some ⟨[97]⟩⟩), 0 + 1,
       [.marshaled (['a'].map acpEncodeChar),
        .nativeCall (c_str (['a'].map acpEncodeChar)),
        .wrapperAllocated 0, .bufferReleased]) :=
  (Create_step_sequence nativeCtorOk ['a'] 0).1 ⟨[97]⟩ (by decide)

/-- C7: a wrapper returned by a successful `Create` owns a non-null native
handle, and its teardown — modelled from the spec, since the wrapper class
body is not under src/ — releases that wrapper's native resource exactly
once, and performs no other action on any resource: never duplicated,
never leaked. -/
theorem Create_release_exactly_once (s : List Char) (fresh : Nat)
    (w : LLDBPlatformConnectOptions)
    (h : (Create nativeCtorOk (some s) fresh).1 = .ok (some w)) :
    w.handle.isSome = true ∧
    teardown w = [.release w.id] ∧
    (teardown w).count (.release w.id) = 1 := by
  unfold Create marshal_as nativeCtorOk at h
  simp at h
  subst h
  refine ⟨rfl, rfl, ?_⟩
  simp [teardown]

/-- C7, witness at the locator "a". -/
theorem Create_release_exactly_once_witness :
    (⟨0, some ⟨[97]⟩⟩ : LLDBPlatformConnectOptions).handle.isSome = true ∧
    teardown ⟨0, some ⟨[97]⟩⟩ =
      [.release (⟨0, some ⟨[97]⟩⟩ : LLDBPlatformConnectOptions).id] ∧
    (teardown ⟨0, some ⟨[97]⟩⟩).count
      (.release (⟨0, some ⟨[97]⟩⟩ : LLDBPlatformConnectOptions).id) = 1 :=
  Create_release_exactly_once ['a'] 0 ⟨0, some ⟨[97]⟩⟩ (by decide)

/-- C8: `Create` is stateless and deterministic — stripped of the
allocation identity, its result is the same whatever the allocator state —
and two successive invocations with the same locator text yield two
independent wrappers: distinct allocation identities, equal (but separate,
value-copied) native content, and the teardown of either wrapper releases
only its own resource, never the other's. -/
theorem Create_deterministic_independent (ctor : NativeCtor)
    (url : Option (List Char)) (n m : Nat)
    (w1 w2 : LLDBPlatformConnectOptions)
    (h1 : (Create ctor url n).1 = .ok (some w1))
    (h2 : (Create ctor url (Create ctor url n).2.1).1 = .ok (some w2)) :
    (Create ctor url n).1.map (Option.map LLDBPlatformConnectOptions.handle) =
      (Create ctor url m).1.map
        (Option.map LLDBPlatformConnectOptions.handle) ∧
    w1.id ≠ w2.id ∧ w1.handle = w2.handle ∧
    ReleaseEvent.release w2.id ∉ teardown w1 ∧
    ReleaseEvent.release w1.id ∉ teardown w2 := by
  cases url with
  | none => simp [Create, marshal_as] at h1
  | some s =>
    cases hc : ctor (c_str (s.map acpEncodeChar)) with
    | error f => simp [Create, marshal_as, hc] at h1
    | ok sc =>
      simp [Create, marshal_as, hc] at h1 h2
      subst h1
      subst h2
      refine ⟨by simp [Create, marshal_as, hc, Except.map], by simp, rfl,
        ?_, ?_⟩ <;> simp [teardown]

/-- C8, witness: two successive invocations on the locator "a" from
allocator states 0 and 5. -/
theorem Create_deterministic_independent_witness :
    (Create nativeCtorOk (some ['a']) 0).1.map
        (Option.map LLDBPlatformConnectOptions.handle) =
      (Create nativeCtorOk (some ['a']) 5).1.map
        (Option.map LLDBPlatformConnectOptions.handle) ∧
    (⟨0, some ⟨[97]⟩⟩ : LLDBPlatformConnectOptions).id ≠
      (⟨1, some ⟨[97]⟩⟩ : LLDBPlatformConnectOptions).id ∧
    (⟨0, some ⟨[97]⟩⟩ : LLDBPlatformConnectOptions).handle =
      (⟨1, some ⟨[97]⟩⟩ : LLDBPlatformConnectOptions).handle ∧
    ReleaseEvent.release
        (⟨1, some ⟨[97]⟩⟩ : LLDBPlatformConnectOptions).id ∉
      teardown ⟨0, some ⟨[97]⟩⟩ ∧
    ReleaseEvent.release
        (⟨0, some ⟨[97]⟩⟩ : LLDBPlatformConnectOptions).id ∉
      teardown ⟨1, some ⟨[97]⟩⟩ :=
  Create_deterministic_independent nativeCtorOk (some ['a']) 0 5
    ⟨0, some ⟨[97]⟩⟩ ⟨1, some ⟨[97]⟩⟩ (by decide) (by decide)

/-- C9: whenever `Create` returns normally, the returned managed reference
is non-null — it is the freshly `gcnew`-allocated wrapper, carrying the
fresh allocation identity, whose allocation the trace records. -/
theorem Create_success_nonnull (ctor : NativeCtor)
    (url : Option (List Char)) (fresh : Nat)
    (r : Option LLDBPlatformConnectOptions)
    (h : (Create ctor url fresh).1 = .ok r) :
    r.isSome = true ∧
    ∃ w, r = some w ∧ w.id = fresh ∧
      Event.wrapperAllocated fresh ∈ (Create ctor url fresh).2.2 := by
  cases url with
  | none => simp [Create, marshal_as] at h
  | some s =>
    cases hc : ctor (c_str (s.map acpEncodeChar)) with
    | error f => simp [Create, marshal_as, hc] at h
    | ok sc =>
      simp [Create, marshal_as, hc] at h
      subst h
      exact ⟨rfl, _, rfl, rfl, by simp [Create, marshal_as, hc]⟩

/-- C9, witness at the locator "a". -/
theorem Create_success_nonnull_witness :
    (some (⟨0, some ⟨[97]⟩⟩ : LLDBPlatformConnectOptions)).isSome = true ∧
    ∃ w, (some (⟨0, some ⟨[97]⟩⟩ : LLDBPlatformConnectOptions)) = some w ∧
      w.id = 0 ∧
      Event.wrapperAllocated 0 ∈
        (Create nativeCtorOk (some ['a']) 0).2.2 :=
  Create_success_nonnull nativeCtorOk (some ['a']) 0
    (some ⟨0, some ⟨[97]⟩⟩) (by decide)

/-- C10: if the string-marshaling step fails, `Create` propagates the
failure with the native constructor never invoked and no wrapper allocated:
the trace is empty and the allocation counter is unchanged, so bridging
failure leaves all observable state untouched. -/
theorem Create_marshal_failure_atomic (ctor : NativeCtor)
    (url : Option (List Char)) (fresh : Nat) (e : MarshalError)
    (h : marshal_as url = .error e) :
    (Create ctor url fresh).1 = .error .invalidArgument ∧
    (Create ctor url fresh).2.2 = [] ∧
    (Create ctor url fresh).2.1 = fresh := by
  cases e
  refine ⟨?_, ?_, ?_⟩ <;> simp [Create, h]

/-- C10, witness at the null locator. -/
theorem Create_marshal_failure_atomic_witness :
    (Create nativeCtorOk none 0).1 = .error .invalidArgument ∧
    (Create nativeCtorOk none 0).2.2 = [] ∧
    (Create nativeCtorOk none 0).2.1 = 0 :=
  Create_marshal_failure_atomic nativeCtorOk none 0 .argumentNull rfl

end DebugEngine
end YetiVSI
